import Mathlib

/-!
Shallow embedding of `src/app.py`: a FastAPI + SQLAlchemy CRUD service for
categories, products, clients and orders, with an `order_products`
many-to-many join table.  Tables are lists of rows; generated primary keys
are modelled by per-table counters; each handler is a pure function from a
payload and a database state to a response (`Except ApiError`) together
with the database state after the request.  A handler that raises before
writing returns the state unchanged.
-/

namespace App

/-- Row of the `categories` table (class `Categories` in the source). -/
structure Categories where
  id : Nat
  name : String
  deriving Repr, DecidableEq

/-- Row of the `products` table. -/
structure Product where
  id : Nat
  name : String
  price : Int
  category_id : Nat
  deriving Repr, DecidableEq

/-- Row of the `clients` table. -/
structure Client where
  id : Nat
  name : String
  email : String
  password : String
  deriving Repr, DecidableEq

/-- Row of the `orders` table (class `Orders` in the source). -/
structure Orders where
  id : Nat
  client_id : Nat
  deriving Repr, DecidableEq

/-- The whole relational store: the four tables, the `order_products`
join table (pairs of order id and product id), and the autoincrement
counter of each table. -/
structure DB where
  categories : List Categories
  products : List Product
  clients : List Client
  orders : List Orders
  order_products : List (Nat × Nat)
  next_category_id : Nat
  next_product_id : Nat
  next_client_id : Nat
  next_order_id : Nat
  deriving Repr, DecidableEq

/-- The store with all tables empty and counters at 1. -/
def emptyDB : DB :=
  { categories := [], products := [], clients := [], orders := []
    order_products := []
    next_category_id := 1, next_product_id := 1
    next_client_id := 1, next_order_id := 1 }

/-- Errors a request can end in.  `notFound` is an `HTTPException(404)`
with its detail string; `validationError` is the 422 pydantic rejection;
`conflictError` is the unique-constraint failure the store raises on
commit (the source does not catch it); `invalidRequestError` is the
session error SQLAlchemy raises when `db.refresh` is called on an
instance that is no longer persistent. -/
inductive ApiError where
  | notFound (detail : String)
  | validationError
  | conflictError
  | invalidRequestError
  deriving Repr, DecidableEq

deriving instance DecidableEq for Except

/-- `CategoryCreate` pydantic model: the request body of POST
/api/categories/, and also — as declared by `response_model=CategoryCreate`
on the route — the shape of its response body: the name alone. -/
structure CategoryCreate where
  name : String
  deriving Repr, DecidableEq

/-- `CategoryOut` pydantic model (declared in the source but never used as
a response model): id, name and the nested product list. -/
structure CategoryOut where
  id : Nat
  name : String
  products : List Product
  deriving Repr, DecidableEq

/-- `ProductOut` pydantic model: id, name, price. -/
structure ProductOut where
  id : Nat
  name : String
  price : Int
  deriving Repr, DecidableEq

/-- `ClientOut` pydantic model: id, name, email (no password). -/
structure ClientOut where
  id : Nat
  name : String
  email : String
  deriving Repr, DecidableEq

/-- `OrderOut` pydantic model: id, nested client, nested product list. -/
structure OrderOut where
  id : Nat
  client : ClientOut
  products : List ProductOut
  deriving Repr, DecidableEq

/-- Projection of a product row to `ProductOut`. -/
def productOut (p : Product) : ProductOut :=
  ⟨p.id, p.name, p.price⟩

/-- Projection of a client row to `ClientOut`. -/
def clientOut (c : Client) : ClientOut :=
  ⟨c.id, c.name, c.email⟩

/-- The `Categories.products` relationship: the products whose
`category_id` is the given category id. -/
def DB.productsOf (db : DB) (cid : Nat) : List Product :=
  db.products.filter (fun p => p.category_id == cid)

/-- Serialization of a category row together with its relationship
products, the shape of `CategoryOut`. -/
def categoryOut (db : DB) (c : Categories) : CategoryOut :=
  ⟨c.id, c.name, db.productsOf c.id⟩

/-- The pydantic constraint `Field(min_length=1, max_length=128)` placed
on every `name` field of the create models. -/
def validName (s : String) : Bool :=
  decide (1 ≤ s.length) && decide (s.length ≤ 128)

/-- `create_category` (POST /api/categories/): pydantic validates the
name, the row is inserted and committed, and the refreshed row is
returned — filtered through `response_model=CategoryCreate`, which keeps
only the name. -/
def create_category (name : String) (db : DB) :
    Except ApiError CategoryCreate × DB :=
  if validName name then
    (.ok ⟨name⟩,
     { db with categories := db.categories ++ [⟨db.next_category_id, name⟩]
               next_category_id := db.next_category_id + 1 })
  else (.error .validationError, db)

/-- Status code declared on the POST /api/categories/ route. -/
def create_category_status_code : Nat := 201

/-- `create_product` (POST /api/products/): 404 if the category id does
not resolve, otherwise insert and return the row as `ProductOut`. -/
def create_product (name : String) (price : Int) (category_id : Nat)
    (db : DB) : Except ApiError ProductOut × DB :=
  if validName name then
    match db.categories.find? (fun c => c.id == category_id) with
    | none => (.error (.notFound "Category not found"), db)
    | some _ =>
      (.ok ⟨db.next_product_id, name, price⟩,
       { db with
           products := db.products ++ [⟨db.next_product_id, name, price, category_id⟩]
           next_product_id := db.next_product_id + 1 })
  else (.error .validationError, db)

/-- `create_client` (POST /api/clients/): insert the row.  The commit
trips the unique constraint on `clients.email` when a row with that email
already exists; the handler does not catch it, so the request fails with
the store's error and nothing is written. -/
def create_client (name email password : String) (db : DB) :
    Except ApiError ClientOut × DB :=
  if validName name then
    if db.clients.any (fun c => c.email == email) then
      (.error .conflictError, db)
    else
      (.ok ⟨db.next_client_id, name, email⟩,
       { db with clients := db.clients ++ [⟨db.next_client_id, name, email, password⟩]
                 next_client_id := db.next_client_id + 1 })
  else (.error .validationError, db)

/-- `create_order` (POST /api/orders/): 404 if the client id does not
resolve; fetch the product rows whose id is in the submitted list
(`Product.id.in_`), 404 if their count differs from the length of the
list; otherwise insert the order row and one join row per fetched
product, all in one commit. -/
def create_order (client_id : Nat) (product_ids : List Nat) (db : DB) :
    Except ApiError OrderOut × DB :=
  match db.clients.find? (fun c => c.id == client_id) with
  | none => (.error (.notFound "Client not found"), db)
  | some db_client =>
    let db_products := db.products.filter (fun p => decide (p.id ∈ product_ids))
    if db_products.length ≠ product_ids.length then
      (.error (.notFound "One or more products not found"), db)
    else
      (.ok ⟨db.next_order_id, clientOut db_client, db_products.map productOut⟩,
       { db with
           orders := db.orders ++ [⟨db.next_order_id, client_id⟩]
           order_products :=
             db.order_products ++ db_products.map (fun p => (db.next_order_id, p.id))
           next_order_id := db.next_order_id + 1 })

/-- `get_categories_by_id` (GET /api/categories/\x7bid\x7d): 404 if absent,
otherwise the row with its relationship products. -/
def get_categories_by_id (category_id : Nat) (db : DB) :
    Except ApiError CategoryOut :=
  match db.categories.find? (fun c => c.id == category_id) with
  | none => .error (.notFound "Category not found")
  | some c => .ok (categoryOut db c)

/-- `get_products_by_id` (GET /api/products/\x7bid\x7d). -/
def get_products_by_id (product_id : Nat) (db : DB) :
    Except ApiError ProductOut :=
  match db.products.find? (fun p => p.id == product_id) with
  | none => .error (.notFound "Product not found")
  | some p => .ok (productOut p)

/-- `get_clients_by_id` (GET /api/clients/\x7bid\x7d). -/
def get_clients_by_id (client_id : Nat) (db : DB) :
    Except ApiError ClientOut :=
  match db.clients.find? (fun c => c.id == client_id) with
  | none => .error (.notFound "Client not found")
  | some c => .ok (clientOut c)

/-- The handler of GET api/clients/\x7bid\x7d/orders, named
`get_clients_by_id` in the source where it shadows the previous handler:
it never consults the `clients` table; it filters the `orders` table by
`client_id` and raises 404 when the resulting list is empty. -/
def get_client_orders (client_id : Nat) (db : DB) :
    Except ApiError (List Orders) :=
  let db_orders := db.orders.filter (fun o => o.client_id == client_id)
  if db_orders.isEmpty then .error (.notFound "Client not found")
  else .ok db_orders

/-- `get_order` (GET /api/orders/\x7bid\x7d). -/
def get_order (order_id : Nat) (db : DB) : Except ApiError OrderOut :=
  match db.orders.find? (fun o => o.id == order_id) with
  | none => .error (.notFound "Order not found")
  | some o =>
    .ok ⟨o.id,
         (db.clients.find? (fun c => c.id == o.client_id)).elim
           ⟨0, "", ""⟩ clientOut,
         ((db.order_products.filter (fun j => j.1 == o.id)).filterMap
           (fun j => db.products.find? (fun p => p.id == j.2))).map productOut⟩

/-- `delete_order` (DELETE /api/orders/\x7bid\x7d): 404 if absent; delete
the row and its join rows and commit; then `db.refresh(order)` runs on
the now-detached instance, and the session raises `InvalidRequestError`
before the handler can return the row. -/
def delete_order (order_id : Nat) (db : DB) :
    Except ApiError OrderOut × DB :=
  match db.orders.find? (fun o => o.id == order_id) with
  | none => (.error (.notFound "Order not found"), db)
  | some o =>
    (.error .invalidRequestError,
     { db with orders := db.orders.filter (fun x => x.id != o.id)
               order_products := db.order_products.filter (fun j => j.1 != o.id) })

/-- `delete_product` (DELETE /api/products/\x7bid\x7d): same shape as
`delete_order`, including the failing refresh after the commit. -/
def delete_product (product_id : Nat) (db : DB) :
    Except ApiError ProductOut × DB :=
  match db.products.find? (fun p => p.id == product_id) with
  | none => (.error (.notFound "Product not found"), db)
  | some p =>
    (.error .invalidRequestError,
     { db with products := db.products.filter (fun x => x.id != p.id)
               order_products := db.order_products.filter (fun j => j.2 != p.id) })

/-- `delete_client` (DELETE /api/clients/\x7bid\x7d): 404 if absent; the
`cascade="all, delete-orphan"` on `Client.orders` deletes the client's
orders, whose join rows go with them; then the refresh on the detached
instance raises as in the other delete handlers. -/
def delete_client (client_id : Nat) (db : DB) :
    Except ApiError ClientOut × DB :=
  match db.clients.find? (fun c => c.id == client_id) with
  | none => (.error (.notFound "Client not found"), db)
  | some c =>
    let dead_orders := db.orders.filter (fun o => o.client_id == c.id)
    (.error .invalidRequestError,
     { db with clients := db.clients.filter (fun x => x.id != c.id)
               orders := db.orders.filter (fun o => o.client_id != c.id)
               order_products := db.order_products.filter
                 (fun j => !(dead_orders.any (fun o => o.id == j.1))) })

/-- Modelled from the spec: `src/app.py` declares the cascade on the
`Categories.products` relationship but contains no DELETE
/api/categories/\x7bid\x7d route; this handler follows the spec's
endpoint table (verify existence, 404 if absent, delete with cascade to
the category's products, return the deleted row's representation). -/
def delete_category (category_id : Nat) (db : DB) :
    Except ApiError CategoryOut × DB :=
  match db.categories.find? (fun c => c.id == category_id) with
  | none => (.error (.notFound "Category not found"), db)
  | some c =>
    let dead_products := db.products.filter (fun p => p.category_id == c.id)
    (.ok (categoryOut db c),
     { db with categories := db.categories.filter (fun x => x.id != c.id)
               products := db.products.filter (fun p => p.category_id != c.id)
               order_products := db.order_products.filter
                 (fun j => !(dead_products.any (fun p => p.id == j.2))) })

/-! Concrete store states used as test fixtures below. -/

/-- One category, one product of that category, one client, no orders. -/
def db1 : DB :=
  { categories := [⟨1, "Fiction"⟩]
    products := [⟨1, "Dune", 999, 1⟩]
    clients := [⟨1, "Ada", "a@x.com", "p"⟩]
    orders := []
    order_products := []
    next_category_id := 2, next_product_id := 2
    next_client_id := 2, next_order_id := 1 }

/-- One category only. -/
def dbOneCat : DB :=
  { emptyDB with categories := [⟨1, "X"⟩], next_category_id := 2 }

/-- `db1` with one order of client 1 containing product 1. -/
def dbOneOrder : DB :=
  { db1 with orders := [⟨1, 1⟩], order_products := [(1, 1)], next_order_id := 2 }

/-- One category owning two products, and a second category with none. -/
def dbTwoProducts : DB :=
  { emptyDB with
      categories := [⟨1, "A"⟩, ⟨2, "B"⟩]
      products := [⟨1, "P1", 5, 1⟩, ⟨2, "P2", 7, 1⟩]
      next_category_id := 3, next_product_id := 3 }

/-! Helper lemmas about the product-count comparison in `create_order`. -/

/-- The rows fetched by `Product.id.in_(ids)` are at most one per distinct
id in `ids`, when the table's primary keys are distinct. -/
theorem length_filter_mem_le (l : List Product) (ids : List Nat)
    (h : (l.map Product.id).Nodup) :
    (l.filter (fun p => decide (p.id ∈ ids))).length ≤ ids.dedup.length := by
  have hsub : List.Sublist ((l.filter (fun p => decide (p.id ∈ ids))).map Product.id) (l.map Product.id) :=
    (List.filter_sublist l).map Product.id
  have hnd : ((l.filter (fun p => decide (p.id ∈ ids))).map Product.id).Nodup :=
    h.sublist hsub
  have hss : ((l.filter (fun p => decide (p.id ∈ ids))).map Product.id).toFinset ⊆
      ids.dedup.toFinset := by
    intro x hx
    rw [List.mem_toFinset] at hx ⊢
    rw [List.mem_dedup]
    obtain ⟨p, hp, rfl⟩ := List.mem_map.mp hx
    have hmem := (List.mem_filter.mp hp).2
    simpa using hmem
  calc (l.filter (fun p => decide (p.id ∈ ids))).length
      = ((l.filter (fun p => decide (p.id ∈ ids))).map Product.id).length := by
        rw [List.length_map]
    _ = ((l.filter (fun p => decide (p.id ∈ ids))).map Product.id).toFinset.card :=
        (List.toFinset_card_of_nodup hnd).symm
    _ ≤ ids.dedup.toFinset.card := Finset.card_le_card hss
    _ ≤ ids.dedup.length := List.toFinset_card_le _

/-- When some id in the submitted list matches no row, strictly fewer rows
come back than ids were submitted. -/
theorem length_filter_mem_lt (l : List Product) (ids : List Nat)
    (h : (l.map Product.id).Nodup) (m : Nat) (hm : m ∈ ids)
    (hmiss : ∀ p ∈ l, p.id ≠ m) :
    (l.filter (fun p => decide (p.id ∈ ids))).length < ids.length := by
  have hsub : List.Sublist ((l.filter (fun p => decide (p.id ∈ ids))).map Product.id) (l.map Product.id) :=
    (List.filter_sublist l).map Product.id
  have hnd : ((l.filter (fun p => decide (p.id ∈ ids))).map Product.id).Nodup :=
    h.sublist hsub
  have hss : ((l.filter (fun p => decide (p.id ∈ ids))).map Product.id).toFinset ⊆
      ids.toFinset.erase m := by
    intro x hx
    rw [List.mem_toFinset] at hx
    obtain ⟨p, hp, rfl⟩ := List.mem_map.mp hx
    rw [Finset.mem_erase, List.mem_toFinset]
    have hmem := (List.mem_filter.mp hp).2
    exact ⟨hmiss p (List.mem_filter.mp hp).1, by simpa using hmem⟩
  have hmf : m ∈ ids.toFinset := List.mem_toFinset.mpr hm
  calc (l.filter (fun p => decide (p.id ∈ ids))).length
      = ((l.filter (fun p => decide (p.id ∈ ids))).map Product.id).length := by
        rw [List.length_map]
    _ = ((l.filter (fun p => decide (p.id ∈ ids))).map Product.id).toFinset.card :=
        (List.toFinset_card_of_nodup hnd).symm
    _ ≤ (ids.toFinset.erase m).card := Finset.card_le_card hss
    _ < ids.toFinset.card := Finset.card_erase_lt_of_mem hmf
    _ ≤ ids.length := List.toFinset_card_le _

/-- A list with a duplicate is strictly longer than its dedup. -/
theorem dedup_length_lt_of_not_nodup (ids : List Nat) (hdup : ¬ ids.Nodup) :
    ids.dedup.length < ids.length := by
  rcases Nat.lt_or_ge ids.dedup.length ids.length with h | h
  · exact h
  · exfalso
    have hlen : ids.dedup.length = ids.length :=
      Nat.le_antisymm (ids.dedup_sublist.length_le) h
    have heq : ids.dedup = ids := ids.dedup_sublist.eq_of_length hlen
    exact hdup (heq ▸ ids.nodup_dedup)

/-- When the submitted id list has a duplicate, the count of fetched rows
can never equal the length of the list. -/
theorem length_filter_mem_ne_of_dup (l : List Product) (ids : List Nat)
    (h : (l.map Product.id).Nodup) (hdup : ¬ ids.Nodup) :
    (l.filter (fun p => decide (p.id ∈ ids))).length ≠ ids.length :=
  Nat.ne_of_lt (Nat.lt_of_le_of_lt (length_filter_mem_le l ids h)
    (dedup_length_lt_of_not_nodup ids hdup))

/-- When every submitted id resolves, the ids are distinct and the table's
primary keys are distinct, the fetched rows carry exactly the submitted
ids, as a permutation. -/
theorem filter_mem_map_perm (l : List Product) (ids : List Nat)
    (h : (l.map Product.id).Nodup) (hids : ids.Nodup)
    (hall : ∀ i ∈ ids, ∃ p ∈ l, p.id = i) :
    ((l.filter (fun p => decide (p.id ∈ ids))).map Product.id).Perm ids := by
  have hsub : List.Sublist ((l.filter (fun p => decide (p.id ∈ ids))).map Product.id) (l.map Product.id) :=
    (List.filter_sublist l).map Product.id
  have hnd : ((l.filter (fun p => decide (p.id ∈ ids))).map Product.id).Nodup :=
    h.sublist hsub
  apply List.perm_of_nodup_nodup_toFinset_eq hnd hids
  apply Finset.Subset.antisymm
  · intro x hx
    rw [List.mem_toFinset] at hx ⊢
    obtain ⟨p, hp, rfl⟩ := List.mem_map.mp hx
    simpa using (List.mem_filter.mp hp).2
  · intro x hx
    rw [List.mem_toFinset] at hx ⊢
    obtain ⟨p, hp, rfl⟩ := hall x hx
    exact List.mem_map.mpr ⟨p, List.mem_filter.mpr ⟨hp, by simpa using hx⟩, rfl⟩

/-- Branch equation of `create_order`: client id unresolved. -/
theorem create_order_eq_client_missing (client_id : Nat) (product_ids : List Nat)
    (db : DB)
    (hfind : db.clients.find? (fun c => c.id == client_id) = none) :
    create_order client_id product_ids db =
      (.error (.notFound "Client not found"), db) := by
  unfold create_order
  rw [hfind]

/-- Branch equation of `create_order`: client found but the fetched
product count differs from the length of the submitted list. -/
theorem create_order_eq_count_mismatch (client_id : Nat) (product_ids : List Nat)
    (db : DB) (c : Client)
    (hfind : db.clients.find? (fun x => x.id == client_id) = some c)
    (hlen : (db.products.filter (fun p => decide (p.id ∈ product_ids))).length ≠
      product_ids.length) :
    create_order client_id product_ids db =
      (.error (.notFound "One or more products not found"), db) := by
  unfold create_order
  rw [hfind]
  simp only [if_pos hlen]

/-- Branch equation of `create_order`: client found and counts match, so
the order row and its join rows are committed. -/
theorem create_order_eq_ok (client_id : Nat) (product_ids : List Nat)
    (db : DB) (c : Client)
    (hfind : db.clients.find? (fun x => x.id == client_id) = some c)
    (hlen : (db.products.filter (fun p => decide (p.id ∈ product_ids))).length =
      product_ids.length) :
    create_order client_id product_ids db =
      (.ok ⟨db.next_order_id, clientOut c,
            (db.products.filter (fun p => decide (p.id ∈ product_ids))).map productOut⟩,
       { db with
           orders := db.orders ++ [⟨db.next_order_id, client_id⟩]
           order_products := db.order_products ++
             (db.products.filter (fun p => decide (p.id ∈ product_ids))).map
               (fun p => (db.next_order_id, p.id))
           next_order_id := db.next_order_id + 1 }) := by
  unfold create_order
  rw [hfind]
  simp only [if_neg (not_ne_iff.mpr hlen)]

/-! Claim theorems about `create_order`. -/

/-- C1: an order-creation request whose client id does not resolve, or at
least one of whose listed product ids does not resolve, fails with
NotFound (404) and leaves the store unchanged: no order row and no
`order_products` join rows are persisted. -/
theorem create_order_missing_ref_404 (client_id : Nat) (product_ids : List Nat)
    (db : DB)
    (hnodup : (db.products.map Product.id).Nodup)
    (hmiss : db.clients.find? (fun c => c.id == client_id) = none ∨
             ∃ pid ∈ product_ids, ∀ p ∈ db.products, p.id ≠ pid) :
    ∃ msg, create_order client_id product_ids db = (.error (.notFound msg), db) := by
  cases hfind : db.clients.find? (fun c => c.id == client_id) with
  | none =>
    refine ⟨"Client not found", ?_⟩
    unfold create_order
    rw [hfind]
  | some c =>
    rcases hmiss with hc | ⟨pid, hpid, hm⟩
    · rw [hfind] at hc
      exact absurd hc (by simp)
    · refine ⟨"One or more products not found", ?_⟩
      have hlt := length_filter_mem_lt db.products product_ids hnodup pid hpid hm
      unfold create_order
      rw [hfind]
      simp only [if_pos (Nat.ne_of_lt hlt)]

/-- C1 witness: creating an order for client 1 with product list
`[1, 999]` on `db1`, where product 999 does not exist, yields NotFound
with the store unchanged. -/
theorem create_order_missing_ref_404_witness :
    ∃ msg, create_order 1 [1, 999] db1 = (.error (.notFound msg), db1) :=
  create_order_missing_ref_404 1 [1, 999] db1 (by decide)
    (Or.inr ⟨999, by decide, by decide⟩)

/-- C10: an order-creation request whose product id list contains a
duplicate always fails with NotFound and creates nothing, because the
count of distinct rows fetched is compared with the length of the
submitted list. -/
theorem create_order_duplicate_ids_404 (client_id : Nat) (product_ids : List Nat)
    (db : DB)
    (hnodup : (db.products.map Product.id).Nodup)
    (hdup : ¬ product_ids.Nodup) :
    ∃ msg, create_order client_id product_ids db = (.error (.notFound msg), db) := by
  cases hfind : db.clients.find? (fun c => c.id == client_id) with
  | none =>
    refine ⟨"Client not found", ?_⟩
    unfold create_order
    rw [hfind]
  | some c =>
    refine ⟨"One or more products not found", ?_⟩
    have hne := length_filter_mem_ne_of_dup db.products product_ids hnodup hdup
    unfold create_order
    rw [hfind]
    simp only [if_pos hne]

/-- C10 witness: the list `[1, 1]` on `db1`, where product 1 exists,
still yields NotFound with the store unchanged. -/
theorem create_order_duplicate_ids_404_witness :
    ∃ msg, create_order 1 [1, 1] db1 = (.error (.notFound msg), db1) :=
  create_order_duplicate_ids_404 1 [1, 1] db1 (by decide) (by decide)

/-- C2 counterexample: on `db1` client 1 exists and every id in the list
`[1, 1]` resolves to an existing product, yet the request fails with 404
and no order row is created — refuting the claim that every request with
an existing client and resolving product ids creates an order. -/
theorem create_order_duplicate_ids_not_created :
    (∃ c ∈ db1.clients, c.id = 1) ∧
    (∀ pid ∈ [1, 1], ∃ p ∈ db1.products, p.id = pid) ∧
    create_order 1 [1, 1] db1 =
      (.error (.notFound "One or more products not found"), db1) := by decide

/-- C2 (amended with a no-duplicates hypothesis): when the client exists,
every listed product id resolves, and the list has no duplicate ids, one
order row referencing that client is appended, and the join relation is
extended by rows of the new order id with exactly the requested product
ids — their multiset is a permutation of the request. -/
theorem create_order_success_spec (client_id : Nat) (product_ids : List Nat)
    (db : DB) (c : Client)
    (hnodup : (db.products.map Product.id).Nodup)
    (hids : product_ids.Nodup)
    (hc : db.clients.find? (fun x => x.id == client_id) = some c)
    (hall : ∀ pid ∈ product_ids, ∃ p ∈ db.products, p.id = pid) :
    create_order client_id product_ids db =
      (.ok ⟨db.next_order_id, clientOut c,
            (db.products.filter (fun p => decide (p.id ∈ product_ids))).map productOut⟩,
       { db with
           orders := db.orders ++ [⟨db.next_order_id, client_id⟩]
           order_products := db.order_products ++
             (db.products.filter (fun p => decide (p.id ∈ product_ids))).map
               (fun p => (db.next_order_id, p.id))
           next_order_id := db.next_order_id + 1 }) ∧
    ((db.products.filter (fun p => decide (p.id ∈ product_ids))).map Product.id).Perm
      product_ids := by
  have hperm := filter_mem_map_perm db.products product_ids hnodup hids hall
  have hlen : (db.products.filter (fun p => decide (p.id ∈ product_ids))).length =
      product_ids.length := by
    have h := hperm.length_eq
    rwa [List.length_map] at h
  refine ⟨?_, hperm⟩
  unfold create_order
  rw [hc]
  simp only [if_neg (not_ne_iff.mpr hlen)]

/-- C2 witness: creating an order for client 1 with list `[1]` on `db1`
appends order 1 and the join row `(1, 1)`. -/
theorem create_order_success_spec_witness :
    create_order 1 [1] db1 =
      (.ok ⟨db1.next_order_id, clientOut ⟨1, "Ada", "a@x.com", "p"⟩,
            (db1.products.filter (fun p => decide (p.id ∈ [1]))).map productOut⟩,
       { db1 with
           orders := db1.orders ++ [⟨db1.next_order_id, 1⟩]
           order_products := db1.order_products ++
             (db1.products.filter (fun p => decide (p.id ∈ [1]))).map
               (fun p => (db1.next_order_id, p.id))
           next_order_id := db1.next_order_id + 1 }) ∧
    ((db1.products.filter (fun p => decide (p.id ∈ [1]))).map Product.id).Perm [1] :=
  create_order_success_spec 1 [1] db1 ⟨1, "Ada", "a@x.com", "p"⟩
    (by decide) (by decide) (by decide) (by decide)

/-- C9 counterexample: `create_order` accepts an empty product id list;
on `db1` it creates order 1 with zero join rows, a reachable state in
which an order is associated with no product. -/
theorem create_order_empty_products_reachable :
    create_order 1 [] db1 =
      (.ok ⟨1, ⟨1, "Ada", "a@x.com"⟩, []⟩,
       { db1 with orders := [⟨1, 1⟩], next_order_id := 2 }) ∧
    (∃ o ∈ (create_order 1 [] db1).2.orders, o.id = 1) ∧
    (create_order 1 [] db1).2.order_products = [] := by decide

/-- C9 (amended to nonempty requests): an order created from a nonempty
product id list has at least one `order_products` join row. -/
theorem create_order_nonempty_products (client_id : Nat) (product_ids : List Nat)
    (db : DB) (out : OrderOut) (db' : DB)
    (hne : product_ids ≠ [])
    (hok : create_order client_id product_ids db = (.ok out, db')) :
    ∃ pid, (db.next_order_id, pid) ∈ db'.order_products := by
  cases hfind : db.clients.find? (fun c => c.id == client_id) with
  | none =>
    rw [create_order_eq_client_missing client_id product_ids db hfind] at hok
    exact absurd hok (by simp)
  | some c =>
    by_cases hlen : (db.products.filter (fun p => decide (p.id ∈ product_ids))).length =
        product_ids.length
    · rw [create_order_eq_ok client_id product_ids db c hfind hlen] at hok
      have hnil : db.products.filter (fun p => decide (p.id ∈ product_ids)) ≠ [] := by
        intro h
        rw [h] at hlen
        exact hne (List.length_eq_zero.mp hlen.symm)
      obtain ⟨p, hp⟩ := List.exists_mem_of_ne_nil _ hnil
      refine ⟨p.id, ?_⟩
      injection hok with h1 h2
      subst h2
      exact List.mem_append_right _ (List.mem_map.mpr ⟨p, hp, rfl⟩)
    · rw [create_order_eq_count_mismatch client_id product_ids db c hfind hlen] at hok
      exact absurd hok (by simp)

/-- C9 witness: creating order 1 with list `[1]` on `db1` leaves a join
row for order 1. -/
theorem create_order_nonempty_products_witness :
    ∃ pid, (db1.next_order_id, pid) ∈ (create_order 1 [1] db1).2.order_products :=
  create_order_nonempty_products 1 [1] db1
    ⟨1, ⟨1, "Ada", "a@x.com"⟩, [⟨1, "Dune", 999⟩]⟩
    { db1 with orders := [⟨1, 1⟩], order_products := [(1, 1)], next_order_id := 2 }
    (by decide) (by decide)

/-- C3: a product-creation request whose category id does not resolve
returns NotFound (404) and persists no product row; when the category
exists and the payload is valid, the row is inserted and returned with
its generated id. -/
theorem create_product_spec (name : String) (price : Int) (category_id : Nat)
    (db : DB) (hv : validName name = true) :
    (db.categories.find? (fun c => c.id == category_id) = none →
      create_product name price category_id db =
        (.error (.notFound "Category not found"), db)) ∧
    (∀ c, db.categories.find? (fun c2 => c2.id == category_id) = some c →
      create_product name price category_id db =
        (.ok ⟨db.next_product_id, name, price⟩,
         { db with
             products := db.products ++ [⟨db.next_product_id, name, price, category_id⟩]
             next_product_id := db.next_product_id + 1 })) := by
  constructor
  · intro hfind
    unfold create_product
    rw [if_pos hv, hfind]
  · intro c hfind
    unfold create_product
    rw [if_pos hv, hfind]

/-- C3 witness: on the empty store `POST /api/products/` yields 404 with
nothing written; on `db1` (category 1 exists) the row is inserted with
generated id 2 and returned. -/
theorem create_product_spec_witness :
    create_product "Dune" 999 1 emptyDB =
      (.error (.notFound "Category not found"), emptyDB) ∧
    create_product "Solaris" 500 1 db1 =
      (.ok ⟨2, "Solaris", 500⟩,
       { db1 with products := db1.products ++ [⟨2, "Solaris", 500, 1⟩]
                  next_product_id := 3 }) :=
  ⟨(create_product_spec "Dune" 999 1 emptyDB (by decide)).1 rfl,
   (create_product_spec "Solaris" 500 1 db1 (by decide)).2 ⟨1, "Fiction"⟩ rfl⟩

/-- C4: when no client carries email `e`, a first creation with `e`
succeeds and exactly one row with that email persists; a second creation
with `e` fails with the unique-constraint conflict and changes nothing;
and distinctness of all client emails is preserved. -/
theorem create_client_duplicate_email_conflict (n1 e p1 n2 p2 : String) (db : DB)
    (hv1 : validName n1 = true) (hv2 : validName n2 = true)
    (hfresh : ∀ c ∈ db.clients, c.email ≠ e) :
    ∃ db1,
      create_client n1 e p1 db = (.ok ⟨db.next_client_id, n1, e⟩, db1) ∧
      (db1.clients.filter (fun c => c.email == e)).length = 1 ∧
      create_client n2 e p2 db1 = (.error .conflictError, db1) ∧
      ((db.clients.map Client.email).Nodup → (db1.clients.map Client.email).Nodup) := by
  have hany : db.clients.any (fun c => c.email == e) = false := by
    rw [List.any_eq_false]
    intro c hc
    simp [hfresh c hc]
  refine ⟨{ db with
      clients := db.clients ++ [⟨db.next_client_id, n1, e, p1⟩]
      next_client_id := db.next_client_id + 1 }, ?_, ?_, ?_, ?_⟩
  · unfold create_client
    rw [if_pos hv1, hany]
    rfl
  · rw [List.filter_append]
    have h1 : db.clients.filter (fun c => c.email == e) = [] := by
      rw [List.filter_eq_nil_iff]
      intro c hc
      simp [hfresh c hc]
    rw [h1]
    simp
  · unfold create_client
    rw [if_pos hv2]
    have hany2 : (db.clients ++ [(⟨db.next_client_id, n1, e, p1⟩ : Client)]).any
        (fun c => c.email == e) = true := by
      simp
    rw [hany2]
    rfl
  · intro hnd
    rw [List.map_append, List.nodup_append]
    refine ⟨hnd, by simp, ?_⟩
    intro x hx hx2
    simp only [List.map_cons, List.map_nil, List.mem_singleton] at hx2
    obtain ⟨c, hc, rfl⟩ := List.mem_map.mp hx
    exact hfresh c hc (hx2 ▸ rfl)

/-- C4 witness: on the empty store, creating "a@x.com" once succeeds,
leaves one matching row, and a second creation conflicts. -/
theorem create_client_duplicate_email_conflict_witness :
    ∃ db1,
      create_client "Ada" "a@x.com" "p" emptyDB =
        (.ok ⟨1, "Ada", "a@x.com"⟩, db1) ∧
      (db1.clients.filter (fun c => c.email == "a@x.com")).length = 1 ∧
      create_client "Bob" "a@x.com" "q" db1 = (.error .conflictError, db1) ∧
      ((emptyDB.clients.map Client.email).Nodup →
        (db1.clients.map Client.email).Nodup) :=
  create_client_duplicate_email_conflict "Ada" "a@x.com" "p" "Bob" "q" emptyDB
    (by decide) (by decide) (by decide)

/-- C7: GET clients/id/orders answers 200 with the client's order list
exactly when that list is nonempty, answers NotFound when it is empty,
and reads nothing but the `orders` table — existence of the client never
enters. -/
theorem get_client_orders_spec (client_id : Nat) (db : DB) :
    (db.orders.filter (fun o => o.client_id == client_id) ≠ [] →
      get_client_orders client_id db =
        .ok (db.orders.filter (fun o => o.client_id == client_id))) ∧
    (db.orders.filter (fun o => o.client_id == client_id) = [] →
      get_client_orders client_id db = .error (.notFound "Client not found")) ∧
    (∀ db2 : DB, db2.orders = db.orders →
      get_client_orders client_id db2 = get_client_orders client_id db) := by
  refine ⟨?_, ?_, ?_⟩
  · intro h
    unfold get_client_orders
    rw [if_neg (by simpa [List.isEmpty_iff] using h)]
  · intro h
    unfold get_client_orders
    rw [if_pos (by simpa [List.isEmpty_iff] using h)]
  · intro db2 h2
    unfold get_client_orders
    rw [h2]

/-- C7 witness: on `dbOneOrder`, client 1 has one order and gets it back;
client 2 has none and gets the 404. -/
theorem get_client_orders_spec_witness :
    get_client_orders 1 dbOneOrder = .ok [⟨1, 1⟩] ∧
    get_client_orders 2 dbOneOrder = .error (.notFound "Client not found") :=
  ⟨(get_client_orders_spec 1 dbOneOrder).1 (by decide),
   (get_client_orders_spec 2 dbOneOrder).2.1 (by decide)⟩

/-- C8: at a concrete failing input, the delete handlers remove the row
(and dependents) from the store but end in the session's
InvalidRequestError — raised by `db.refresh` on the deleted, now detached
instance — instead of returning the deleted row's representation; the
missing-id path returns 404 with the store unchanged as claimed. -/
theorem delete_refresh_failure :
    delete_order 1 dbOneOrder =
      (.error .invalidRequestError,
       { dbOneOrder with orders := [], order_products := [] }) ∧
    delete_order 5 dbOneOrder = (.error (.notFound "Order not found"), dbOneOrder) ∧
    delete_product 1 db1 =
      (.error .invalidRequestError, { db1 with products := [] }) ∧
    delete_product 5 db1 = (.error (.notFound "Product not found"), db1) ∧
    delete_client 1 dbOneOrder =
      (.error .invalidRequestError,
       { dbOneOrder with clients := [], orders := [], order_products := [] }) ∧
    delete_client 5 dbOneOrder = (.error (.notFound "Client not found"), dbOneOrder) := by
  decide

/-- C5: deleting a category (endpoint modelled from the spec, cascade
from the `Categories.products` relationship) returns 404 and changes
nothing when the id is absent; when present, every product of that
category is gone afterwards — a GET by its id answers NotFound. -/
theorem delete_category_cascade_spec (category_id : Nat) (db : DB)
    (hnodup : (db.products.map Product.id).Nodup) :
    (db.categories.find? (fun c => c.id == category_id) = none →
      delete_category category_id db =
        (.error (.notFound "Category not found"), db)) ∧
    (∀ c, db.categories.find? (fun x => x.id == category_id) = some c →
      ∀ p ∈ db.products, p.category_id = category_id →
        get_products_by_id p.id (delete_category category_id db).2 =
          .error (.notFound "Product not found")) := by
  constructor
  · intro hfind
    unfold delete_category
    rw [hfind]
  · intro c hfind p hp hpc
    have hcid : c.id = category_id := by
      have h := List.find?_some hfind
      simpa using h
    have heq : (delete_category category_id db).2.products =
        db.products.filter (fun q => q.category_id != c.id) := by
      unfold delete_category
      rw [hfind]
    unfold get_products_by_id
    rw [heq]
    have hnone : (db.products.filter (fun q => q.category_id != c.id)).find?
        (fun q => q.id == p.id) = none := by
      rw [List.find?_eq_none]
      intro q hq
      obtain ⟨hq1, hq2⟩ := List.mem_filter.mp hq
      simp only [bne_iff_ne, ne_eq] at hq2
      intro hbeq
      have hqp : q.id = p.id := by simpa using hbeq
      have hqep : q = p := List.inj_on_of_nodup_map hnodup hq1 hp hqp
      apply hq2
      rw [hqep, hpc, ← hcid]
    rw [hnone]

/-- C5 witness: deleting the missing category 3 of `dbTwoProducts` gives
404 unchanged; deleting category 1, which owns products 1 and 2, makes
GETs for both product ids answer NotFound. -/
theorem delete_category_cascade_spec_witness :
    delete_category 3 dbTwoProducts =
      (.error (.notFound "Category not found"), dbTwoProducts) ∧
    get_products_by_id 1 (delete_category 1 dbTwoProducts).2 =
      .error (.notFound "Product not found") ∧
    get_products_by_id 2 (delete_category 1 dbTwoProducts).2 =
      .error (.notFound "Product not found") :=
  ⟨(delete_category_cascade_spec 3 dbTwoProducts (by decide)).1 rfl,
   (delete_category_cascade_spec 1 dbTwoProducts (by decide)).2
     ⟨1, "A"⟩ rfl ⟨1, "P1", 5, 1⟩ (by decide) rfl,
   (delete_category_cascade_spec 1 dbTwoProducts (by decide)).2
     ⟨1, "A"⟩ rfl ⟨2, "P2", 7, 1⟩ (by decide) rfl⟩

/-- C6 counterexample: two creations, from stores whose next generated id
differs (1 versus 2), produce identical response bodies, so the creation
response — shaped by `response_model=CategoryCreate` — cannot carry the
generated id (nor a products list), refuting the claimed response
content. -/
theorem create_category_response_lacks_id :
    (create_category "Fiction" emptyDB).1 = (create_category "Fiction" dbOneCat).1 ∧
    (∃ c ∈ (create_category "Fiction" emptyDB).2.categories,
      c.id = 1 ∧ c.name = "Fiction") ∧
    (∃ c ∈ (create_category "Fiction" dbOneCat).2.categories,
      c.id = 2 ∧ c.name = "Fiction") := by
  decide

/-- C6 (amended): creating a category with a valid name returns 201 with
a body holding only the name; the row itself is persisted with the
generated id, and fetching that id afterwards returns the same name and
an empty product list. -/
theorem create_category_spec (name : String) (db : DB)
    (hv : validName name = true)
    (hfreshc : ∀ c ∈ db.categories, c.id ≠ db.next_category_id)
    (hfreshp : ∀ p ∈ db.products, p.category_id ≠ db.next_category_id) :
    create_category name db =
      (.ok ⟨name⟩,
       { db with categories := db.categories ++ [⟨db.next_category_id, name⟩]
                 next_category_id := db.next_category_id + 1 }) ∧
    create_category_status_code = 201 ∧
    get_categories_by_id db.next_category_id (create_category name db).2 =
      .ok ⟨db.next_category_id, name, []⟩ := by
  have h1 : create_category name db =
      (.ok ⟨name⟩,
       { db with categories := db.categories ++ [⟨db.next_category_id, name⟩]
                 next_category_id := db.next_category_id + 1 }) := by
    unfold create_category
    rw [if_pos hv]
  refine ⟨h1, rfl, ?_⟩
  rw [h1]
  unfold get_categories_by_id
  dsimp only
  have hfind : ((db.categories ++ [⟨db.next_category_id, name⟩] : List Categories).find?
      (fun c => c.id == db.next_category_id)) = some ⟨db.next_category_id, name⟩ := by
    rw [List.find?_append]
    have hn : db.categories.find? (fun c => c.id == db.next_category_id) = none := by
      rw [List.find?_eq_none]
      intro c hc
      simp [hfreshc c hc]
    rw [hn]
    simp
  rw [hfind]
  have hfilter : db.products.filter
      (fun p => p.category_id == db.next_category_id) = [] := by
    rw [List.filter_eq_nil_iff]
    intro p hp
    simp [hfreshp p hp]
  simp [categoryOut, DB.productsOf, hfilter]

/-- C6 witness: creating "Fiction" on the empty store persists row 1 and
the follow-up GET returns name "Fiction" with no products. -/
theorem create_category_spec_witness :
    create_category "Fiction" emptyDB =
      (.ok ⟨"Fiction"⟩,
       { emptyDB with categories := [⟨1, "Fiction"⟩], next_category_id := 2 }) ∧
    create_category_status_code = 201 ∧
    get_categories_by_id 1 (create_category "Fiction" emptyDB).2 =
      .ok ⟨1, "Fiction", []⟩ :=
  create_category_spec "Fiction" emptyDB (by decide) (by decide) (by decide)

end App
